/-
Verification of the OpenLiveCaption audio-capture core against its
natural-language specification.

The development shallowly embeds `src/audio/audio_capture.py`
(class `AudioCaptureEngine`) and the overlap-window logic of
`src/transcription/transcription_engine.py` (class `TranscriptionEngine`).

Modelling conventions:
- Machine floats become `ℚ` (the claims under study are about control flow,
  queue discipline and exact arithmetic identities, not rounding).
- Audio buffers (numpy float32 arrays) become `List ℚ`.
- Side effects of the Python code (printing, invoking callbacks, sleeping,
  starting and joining threads) are recorded in an explicit `Effect` trace
  returned next to the updated engine state; thread join is recorded as an
  effect and modelled as completing within its bound.
- Python callback objects are identified by opaque tokens: the engine's
  chunk-callback slot holds either a user-supplied callback (`CbVal.plain`)
  or the mixer's internal primary-callback closure wrapping a user callback
  (`CbVal.mixer`), matching the two places the source stores a callback.
- `time.time()` readings are passed in explicitly as a `now : ℚ` argument.
- The capture loop's interaction with the OS stream is abstracted by a
  finite trace of per-attempt stream behaviours (`StreamBehavior`); the
  device-availability check at the top of each attempt is computed from an
  explicit device list exactly as `check_device_available` does, it is not
  part of the oracle trace.
-/
import Mathlib

namespace OpenLiveCaption

/-- Embeds the `AudioDevice` dataclass of `audio_capture.py`. -/
structure AudioDevice where
  id : ℤ
  name : String
  channels : ℕ
  sample_rate : ℕ
  is_loopback : Bool := false
  is_default : Bool := false
  deriving Repr, DecidableEq

/-- Embeds the `AudioConfig` dataclass of `config_manager.py`
(the fields the capture engine reads). -/
structure AudioConfig where
  device_id : ℤ := -1
  sample_rate : ℚ := 16000
  chunk_duration : ℚ := 1
  vad_threshold : ℚ := 1/100
  deriving Repr, DecidableEq

/-- Identity of a chunk-callback value stored in the engine's `callback`
slot: a user-registered callback, or the mixer's primary-callback closure
(created in `start_multi_source_capture`) wrapping user callback `k`. -/
inductive CbVal where
  | plain (k : ℕ)
  | mixer (k : ℕ)
  deriving Repr, DecidableEq

/-- One observable side effect of the engine, in program order. -/
inductive Effect where
  | print (msg : String)
  | errorCb (cb : ℕ) (msg : String)
  | chunkCb (cb : ℕ) (data : List ℚ)
  | sleep (seconds : ℚ)
  | threadStart
  | threadJoin (timeout : ℚ)
  | secondaryThreadStart
  | secondaryThreadJoin (timeout : ℚ)
  | streamOpen
  deriving Repr, DecidableEq

/-- Recognizes a sleep effect (used to count retry delays in traces). -/
def isSleepEff : Effect → Bool
  | .sleep _ => true
  | _ => false

/-- The mutable state of `AudioCaptureEngine` (fields set in `__init__`).
`has_capture_thread` / `has_secondary_thread` record whether a `Thread`
object has been stored in the corresponding slot (Python truthiness of
`self.capture_thread`); the platform stream handles and locks are not
modelled. -/
structure EngineState where
  config : AudioConfig
  is_capturing : Bool
  has_capture_thread : Bool
  stop_event : Bool
  callback : Option CbVal
  error_callback : Option ℕ
  current_device_id : Option ℤ
  current_audio_level : ℚ
  silence_start_time : Option ℚ
  is_paused : Bool
  reconnect_attempts : ℕ
  max_reconnect_attempts : ℕ
  reconnect_delay : ℚ
  last_error : Option String
  secondary_device_id : Option ℤ
  has_secondary_thread : Bool
  secondary_stop_event : Bool
  primary_buffer : List (List ℚ)
  secondary_buffer : List (List ℚ)
  deriving Repr, DecidableEq

/-- `AudioCaptureEngine.__init__`: the freshly constructed engine. -/
def initEngine (config : AudioConfig) : EngineState where
  config := config
  is_capturing := false
  has_capture_thread := false
  stop_event := false
  callback := none
  error_callback := none
  current_device_id := none
  current_audio_level := 0
  silence_start_time := none
  is_paused := false
  reconnect_attempts := 0
  max_reconnect_attempts := 5
  reconnect_delay := 5
  last_error := none
  secondary_device_id := none
  has_secondary_thread := false
  secondary_stop_event := false
  primary_buffer := []
  secondary_buffer := []

/-- Renders an `Option ℤ` the way a Python f-string renders the
`current_device_id` attribute (`None` or the decimal integer). -/
def pyStr : Option ℤ → String
  | none => "None"
  | some i => toString i

/-- `check_device_available`: the id is available iff some enumerated
device carries it.  The Python call sites pass `self.current_device_id`,
which may be `None`; `d.id == None` is false in Python. -/
def check_device_available (devices : List AudioDevice) : Option ℤ → Bool
  | none => false
  | some i => devices.any (fun d => d.id == i)

/-- `detect_device_changes`: true iff a device is configured and no longer
enumerable. -/
def detect_device_changes (devices : List AudioDevice) (s : EngineState) : Bool :=
  match s.current_device_id with
  | none => false
  | some i => !check_device_available devices (some i)

/-- `start_capture(device_id, callback, error_callback)`: returns
`(result, state, effects)`.  Note the source performs no device-list
validation here; the only failure is being already capturing. -/
def start_capture (s : EngineState) (device_id : ℤ) (cb : CbVal)
    (ecb : Option ℕ) : Bool × EngineState × List Effect :=
  if s.is_capturing then
    (false, s, [.print "Warning: Already capturing audio"])
  else
    (true,
      { s with
        callback := some cb
        error_callback := ecb
        current_device_id := some device_id
        stop_event := false
        reconnect_attempts := 0
        has_capture_thread := true
        is_capturing := true },
      [.threadStart])

/-- `stop_capture`, parameterized by the calling thread: no-op when not
capturing; otherwise sets the stop flag, joins the secondary thread (if a
secondary device is active) and the capture thread with 2-second bounds,
and resets the session fields.  The `error_callback` slot and the (dead)
thread object are left in place, as in the source.  When
`onCaptureThread` is true (the method is reached from inside the capture
loop, as `handle_device_disconnection` does), CPython's
`Thread.join` raises `RuntimeError("cannot join current thread")` at
`self.capture_thread.join(timeout=2.0)`, so the statements after the join
never run: the partially updated state and the raised message are
returned (third component `some msg`). -/
def stop_capture_from (onCaptureThread : Bool) (s : EngineState) :
    EngineState × List Effect × Option String :=
  if !s.is_capturing then (s, [], none)
  else
    let effs0 : List Effect := [.print "Stopping audio capture"]
    let s1 := { s with stop_event := true }
    let (s2, effs1) :=
      if s1.secondary_device_id ≠ none then
        ({ s1 with
            secondary_stop_event := true
            secondary_device_id := none
            has_secondary_thread := false },
         if s1.has_secondary_thread then [Effect.secondaryThreadJoin 2] else [])
      else (s1, [])
    if s2.has_capture_thread ∧ onCaptureThread then
      (s2, effs0 ++ effs1, some "cannot join current thread")
    else
      let effs2 := if s2.has_capture_thread then [Effect.threadJoin 2] else []
      ({ s2 with
          is_capturing := false
          callback := none
          current_device_id := none
          is_paused := false
          silence_start_time := none
          primary_buffer := []
          secondary_buffer := [] },
       effs0 ++ effs1 ++ effs2, none)

/-- The public `stop_capture()` as invoked from the caller's thread
(`set_device`, application shutdown): the join succeeds and nothing is
raised. -/
def stop_capture (s : EngineState) : EngineState × List Effect :=
  ((stop_capture_from false s).1, (stop_capture_from false s).2.1)

/-- `set_device(device_id)`: when idle, only records the device; when
capturing, saves the chunk callback, stops, and restarts on the new device
with the saved callback (and, as in the source, the default `None` error
callback). -/
def set_device (s : EngineState) (device_id : ℤ) : EngineState × List Effect :=
  if !s.is_capturing then
    ({ s with current_device_id := some device_id }, [])
  else
    let saved := s.callback
    let (s1, effs1) := stop_capture s
    match saved with
    | none => (s1, effs1)
    | some cb =>
        let (_, s2, effs2) := start_capture s1 device_id cb none
        (s2, effs1 ++ effs2)

/-- `_should_pause_on_silence`, with the `time.time()` reading passed in
as `now`.  Returns the boolean result and the state with the updated
`silence_start_time`. -/
def should_pause_on_silence (s : EngineState) (now : ℚ) : Bool × EngineState :=
  if s.current_audio_level < s.config.vad_threshold then
    match s.silence_start_time with
    | none => (false, { s with silence_start_time := some now })
    | some t0 => if now - t0 > 3 then (true, s) else (false, s)
  else
    (false, { s with silence_start_time := none })

/-- `_mix_and_callback(callback)`: if either buffer is empty, do nothing;
otherwise pop the front chunk of each, truncate both to the shorter
length, average sample-wise and deliver to the user callback `k`. -/
def mix_and_callback (s : EngineState) (k : ℕ) : EngineState × List Effect :=
  match s.primary_buffer, s.secondary_buffer with
  | [], _ => (s, [])
  | _ :: _, [] => (s, [])
  | p :: ps, q :: qs =>
      let min_len := min p.length q.length
      let primary_chunk := p.take min_len
      let secondary_chunk := q.take min_len
      let mixed := List.zipWith (fun a b => (a + b) / 2) primary_chunk secondary_chunk
      ({ s with primary_buffer := ps, secondary_buffer := qs },
       [.chunkCb k mixed])

/-- The `primary_callback` closure created in `start_multi_source_capture`
for user callback `k`, applied to one arriving primary chunk: append the
chunk to the primary queue, then attempt a mix. -/
def primary_callback_step (s : EngineState) (k : ℕ)
    (chunk : List ℚ) : EngineState × List Effect :=
  mix_and_callback { s with primary_buffer := s.primary_buffer ++ [chunk] } k

/-- `start_multi_source_capture(device_ids, callback)` with user callback
token `k`: fails on an empty list, degrades to `start_capture` for a
single id, otherwise starts the primary session with the mixer's
primary-callback closure and a secondary capture thread. -/
def start_multi_source_capture (s : EngineState) (device_ids : List ℤ)
    (k : ℕ) : Bool × EngineState × List Effect :=
  match device_ids with
  | [] => (false, s, [.print "Error: No devices specified"])
  | [d] => start_capture s d (CbVal.plain k) none
  | d1 :: d2 :: _ =>
      if s.is_capturing then
        (false, s, [.print "Warning: Already capturing audio"])
      else
        (true,
          { s with
            primary_buffer := []
            secondary_buffer := []
            callback := some (CbVal.mixer k)
            current_device_id := some d1
            stop_event := false
            has_capture_thread := true
            is_capturing := true
            secondary_device_id := some d2
            secondary_stop_event := false
            has_secondary_thread := true },
          [.threadStart, .secondaryThreadStart])

/-- `handle_device_disconnection`, parameterized by the calling thread:
no-op unless capturing; otherwise reports the disconnection-specific
message and stops the capture.  When the inner `stop_capture` raises (it
does when invoked from the capture thread with a live capture thread),
the exception propagates and the trailing "Please select a different
audio device in settings" notification is skipped. -/
def handle_device_disconnection_from (onCaptureThread : Bool)
    (s : EngineState) : EngineState × List Effect × Option String :=
  if !s.is_capturing then (s, [], none)
  else
    let msg := "Audio device " ++ pyStr s.current_device_id ++ " disconnected"
    let effs0 := [Effect.print msg] ++
      (match s.error_callback with
       | some e => [Effect.errorCb e msg]
       | none => [])
    let s1 := { s with last_error := some msg }
    let (s2, effs1, raised) := stop_capture_from onCaptureThread s1
    match raised with
    | some e => (s2, effs0 ++ effs1, some e)
    | none =>
        let effs2 :=
          match s2.error_callback with
          | some e =>
              [Effect.errorCb e "Please select a different audio device in settings"]
          | none => []
        (s2, effs0 ++ effs1 ++ effs2, none)

/-- The disconnection handler as invoked from the caller's thread (as the
repository's unit tests do). -/
def handle_device_disconnection (s : EngineState) : EngineState × List Effect :=
  ((handle_device_disconnection_from false s).1,
   (handle_device_disconnection_from false s).2.1)

/-- Abstracts what the OS stream does during one attempt of the capture
loop body (`_capture_loop_windows` / `_capture_loop_unix`), after the
device-availability check has passed:
- `openFail msg`: querying or opening the stream raises with `msg`;
- `runsUntilStop`: the stream opens (resetting the reconnect counter) and
  the inner read loop runs until it observes the stop flag, so the body
  returns normally;
- `failsAfterOpen msg`: the stream opens (resetting the reconnect counter)
  but the inner read loop later escalates to an exception with `msg`. -/
inductive StreamBehavior where
  | openFail (msg : String)
  | runsUntilStop
  | failsAfterOpen (msg : String)
  deriving Repr, DecidableEq

/-- One execution of the capture-loop body (`_capture_loop_windows`): the
device check runs first against the current enumeration; on check failure
the disconnection handler runs on the capture thread — when it raises
(its stop joins the capture thread from itself), that exception is the
body's; only when it returns is `"Device ... not available"` raised
(formatted from the id as it then stands).  Otherwise the stream
behaviour decides the outcome.  Returns the state, the effects, and
`some msg` iff the body raised. -/
def run_attempt (devices : List AudioDevice) (b : StreamBehavior)
    (s : EngineState) : EngineState × List Effect × Option String :=
  if !check_device_available devices s.current_device_id then
    let (s1, effs1, raised) := handle_device_disconnection_from true s
    match raised with
    | some e => (s1, effs1, some e)
    | none =>
        (s1, effs1, some ("Device " ++ pyStr s1.current_device_id ++ " not available"))
  else
    match b with
    | .openFail msg => (s, [], some msg)
    | .runsUntilStop =>
        ({ s with reconnect_attempts := 0 },
         [.streamOpen,
          .print ("Started capturing from device " ++ pyStr s.current_device_id)],
         none)
    | .failsAfterOpen msg =>
        ({ s with reconnect_attempts := 0 },
         [.streamOpen,
          .print ("Started capturing from device " ++ pyStr s.current_device_id)],
         some msg)

/-- Helper: invoke the error callback with `msg` when one is registered. -/
def errorCbEffs (s : EngineState) (msg : String) : List Effect :=
  match s.error_callback with
  | some e => [Effect.errorCb e msg]
  | none => []

/-- `_capture_loop`, the reconnection supervisor, driven by a finite trace
of per-attempt stream behaviours.  Each iteration first checks the stop
flag; a body that returns normally breaks the loop; a raised exception is
reported, and either one reconnect attempt is announced and slept through
(when `reconnect_attempts < max_reconnect_attempts`, incrementing the
counter) or the terminal failure message is reported and `is_capturing`
is cleared.  An exhausted trace leaves the loop conceptually still
running. -/
def capture_loop (devices : List AudioDevice) :
    List StreamBehavior → EngineState → EngineState × List Effect
  | [], s => (s, [])
  | b :: rest, s =>
      if s.stop_event then (s, [])
      else
        let (s1, effs1, raised) := run_attempt devices b s
        match raised with
        | none => (s1, effs1)
        | some msg =>
            let emsg := "Error in capture loop: " ++ msg
            let s2 := { s1 with last_error := some emsg }
            let effs2 := effs1 ++ [Effect.print emsg] ++ errorCbEffs s2 emsg
            if s2.reconnect_attempts < s2.max_reconnect_attempts then
              let s3 := { s2 with reconnect_attempts := s2.reconnect_attempts + 1 }
              let rmsg := "Attempting to reconnect (" ++ toString s3.reconnect_attempts
                ++ "/" ++ toString s3.max_reconnect_attempts ++ ")..."
              let effs3 := effs2 ++ [Effect.print rmsg] ++ errorCbEffs s3 rmsg
                ++ [Effect.sleep s3.reconnect_delay]
              let (s4, effs4) := capture_loop devices rest s3
              (s4, effs3 ++ effs4)
            else
              let fmsg := "Maximum reconnection attempts reached. Please check your audio device."
              ({ s2 with is_capturing := false },
               effs2 ++ [Effect.print fmsg] ++ errorCbEffs s2 fmsg)

/-!  Overlap-window buffering of `TranscriptionEngine`
(`transcription_engine.py`).  The Whisper recognizer is an external
collaborator; the result record tracks the audio window handed to it and
the timestamps that `transcribe` computes, the fields the window-buffer
protocol determines. -/

/-- The window-buffer-relevant state of `TranscriptionEngine`
(`audio_buffer`, `chunk_index`, and the fixed `sample_rate`). -/
structure TranscriptionState where
  audio_buffer : List (List ℚ)
  chunk_index : ℕ
  sample_rate : ℚ
  deriving Repr, DecidableEq

/-- `TranscriptionEngine.__init__`: empty buffer, zero index, 16 kHz. -/
def initTranscription : TranscriptionState where
  audio_buffer := []
  chunk_index := 0
  sample_rate := 16000

/-- The window handed to recognition with the timestamps computed by
`transcribe`. -/
structure WindowResult where
  window : List ℚ
  start_time : ℚ
  end_time : ℚ
  deriving Repr, DecidableEq

/-- `transcribe(audio)` restricted to what the engine itself computes:
`start_time = chunk_index * len(audio) / sample_rate`,
`end_time = start_time + len(audio) / sample_rate`, and the increment of
`chunk_index` (which happens on both the success and the error path). -/
def transcribe (s : TranscriptionState) (audio : List ℚ) :
    WindowResult × TranscriptionState :=
  let start_time := (s.chunk_index : ℚ) * ((audio.length : ℚ) / s.sample_rate)
  let end_time := start_time + (audio.length : ℚ) / s.sample_rate
  ({ window := audio, start_time := start_time, end_time := end_time },
   { s with chunk_index := s.chunk_index + 1 })

/-- `process_with_overlap(audio_chunk)`: append the chunk; with fewer than
two buffered chunks return `None`; otherwise transcribe the concatenation
of the last two chunks and retain only the last chunk. -/
def process_with_overlap (s : TranscriptionState) (chunk : List ℚ) :
    Option WindowResult × TranscriptionState :=
  let buf := s.audio_buffer ++ [chunk]
  if buf.length < 2 then (none, { s with audio_buffer := buf })
  else
    let combined := (buf.drop (buf.length - 2)).flatten
    let (r, s1) := transcribe { s with audio_buffer := buf } combined
    (some r, { s1 with audio_buffer := buf.drop (buf.length - 1) })

/-- `reset_buffer()`: clear the buffer and zero the chunk index. -/
def reset_buffer (s : TranscriptionState) : TranscriptionState :=
  { s with audio_buffer := [], chunk_index := 0 }

/-! Concrete sample values used by closed counterexamples and witnesses. -/

/-- A one-device enumeration exposing only device id 3. -/
def sampleDevices : List AudioDevice :=
  [{ id := 3, name := "Built-in Microphone", channels := 2, sample_rate := 16000 }]

/-- A freshly constructed engine with the default configuration. -/
def engine0 : EngineState := initEngine {}

/-- The engine right after `start_capture(3, cb0, ecb1)` succeeded. -/
def started3 : EngineState := (start_capture engine0 3 (CbVal.plain 0) (some 1)).2.1

/-- The engine right after `start_capture(7, cb0, ecb1)` succeeded. -/
def started7 : EngineState := (start_capture engine0 7 (CbVal.plain 0) (some 1)).2.1

/-! Helper lemmas shared by the claim theorems. -/

/-- A capture loop whose stop flag is already set exits at once. -/
theorem capture_loop_of_stop_event (devices : List AudioDevice)
    (bs : List StreamBehavior) (s : EngineState) (h : s.stop_event = true) :
    capture_loop devices bs s = (s, []) := by
  cases bs with
  | nil => rfl
  | cons b rest => simp [capture_loop, h]

/-- After `stop_capture` the engine is never capturing. -/
theorem stop_capture_not_capturing (s : EngineState) :
    (stop_capture s).1.is_capturing = false := by
  unfold stop_capture stop_capture_from
  by_cases h : s.is_capturing
  · simp [h]
  · simp at h
    simp [h]

/-- Averaging two equal-length constant chunks sample-wise yields the
constant chunk of the averages. -/
theorem zipWith_avg_replicate (n : ℕ) (a b : ℚ) :
    List.zipWith (fun x y => (x + y) / 2) (List.replicate n a) (List.replicate n b)
      = List.replicate n ((a + b) / 2) := by
  induction n with
  | zero => rfl
  | succ n ih => simp [List.replicate_succ, ih]

/-- The full behaviour of one capture-loop iteration when the enumeration
no longer contains the configured device: the disconnection handler
reports the disconnection-specific message first and begins stopping the
capture — the stop flag is set, but joining the capture thread from
within itself raises, so the session is left still flagged capturing and
the "Please select..." notice is skipped; the loop's generic exception
handler then reports the join error, announces one reconnect attempt,
increments the counter and sleeps one retry delay; the stop flag then
terminates the loop with no stream ever opened and no further attempt. -/
theorem capture_loop_device_absent (devices : List AudioDevice)
    (b : StreamBehavior) (rest : List StreamBehavior) (s : EngineState)
    (hcap : s.is_capturing = true) (hstop : s.stop_event = false)
    (hatt : s.reconnect_attempts < s.max_reconnect_attempts)
    (hdev : check_device_available devices s.current_device_id = false)
    (hsec : s.secondary_device_id = none)
    (hthr : s.has_capture_thread = true) :
    capture_loop devices (b :: rest) s =
      ({ s with
          stop_event := true,
          last_error := some "Error in capture loop: cannot join current thread",
          reconnect_attempts := s.reconnect_attempts + 1 },
       [Effect.print ("Audio device " ++ pyStr s.current_device_id ++ " disconnected")]
         ++ errorCbEffs s ("Audio device " ++ pyStr s.current_device_id ++ " disconnected")
         ++ [Effect.print "Stopping audio capture"]
         ++ [Effect.print "Error in capture loop: cannot join current thread"]
         ++ errorCbEffs s "Error in capture loop: cannot join current thread"
         ++ [Effect.print ("Attempting to reconnect ("
              ++ toString (s.reconnect_attempts + 1) ++ "/"
              ++ toString s.max_reconnect_attempts ++ ")...")]
         ++ errorCbEffs s ("Attempting to reconnect ("
              ++ toString (s.reconnect_attempts + 1) ++ "/"
              ++ toString s.max_reconnect_attempts ++ ")...")
         ++ [Effect.sleep s.reconnect_delay]) := by
  unfold capture_loop run_attempt handle_device_disconnection_from
    stop_capture_from errorCbEffs
  simp only [hcap, hstop, hdev, hsec, hthr, Bool.not_true, Bool.not_false,
    Bool.false_eq_true, if_false, if_true, ite_true, ite_false, ne_eq,
    not_true_eq_false, not_false_eq_true]
  simp [hatt, capture_loop_of_stop_event]

/-- A fresh engine that has already recorded a silence start at time 0. -/
def engineSilent : EngineState := { engine0 with silence_start_time := some 0 }

/-- C5: for every `vad_threshold` `t`, a measured level below `t` together
with a silence-start timestamp recorded more than 3.0 seconds before `now`
makes `_should_pause_on_silence` return true; a level at or above `t`
makes it return false and clears the silence timer; and while the level
stays below threshold an existing silence timestamp is left untouched by
the call — only an at-or-above-threshold measurement clears it, never the
mere passage of time. -/
theorem vad_should_pause_spec (s : EngineState) (now : ℚ) :
    (∀ t0 : ℚ, s.current_audio_level < s.config.vad_threshold →
        s.silence_start_time = some t0 → now - t0 > 3 →
        (should_pause_on_silence s now).1 = true) ∧
    (s.config.vad_threshold ≤ s.current_audio_level →
        (should_pause_on_silence s now).1 = false ∧
        (should_pause_on_silence s now).2.silence_start_time = none) ∧
    (∀ t0 : ℚ, s.current_audio_level < s.config.vad_threshold →
        s.silence_start_time = some t0 →
        (should_pause_on_silence s now).2.silence_start_time = some t0) := by
  refine ⟨fun t0 hlt hst hdur => ?_, fun hge => ?_, fun t0 hlt hst => ?_⟩
  · simp [should_pause_on_silence, hlt, hst, hdur]
  · simp [should_pause_on_silence, not_lt.mpr hge]
  · by_cases hdur : now - t0 > 3 <;>
      simp [should_pause_on_silence, hlt, hst, hdur]

/-- C5 witness: at a concrete silent engine the pause fires after 10
seconds, and a loud measurement clears the timer. -/
theorem vad_should_pause_spec_witness :
    (engineSilent.current_audio_level < engineSilent.config.vad_threshold ∧
        engineSilent.silence_start_time = some 0 ∧ (10 : ℚ) - 0 > 3) ∧
    (should_pause_on_silence engineSilent 10).1 = true :=
  ⟨by refine ⟨by norm_num [engineSilent, engine0, initEngine], by rfl, by norm_num⟩,
   (vad_should_pause_spec engineSilent 10).1 0
     (by norm_num [engineSilent, engine0, initEngine]) (by rfl) (by norm_num)⟩

/-- C9: `stop_capture` on a non-capturing session changes nothing and has
no effects; on a capturing session it sets the cooperative stop flag,
joins the capture thread with a 2-second bound, ends capturing, and resets
`current_device_id`, the paused flag and the silence timer. -/
theorem stop_capture_spec (s : EngineState) :
    (s.is_capturing = false → stop_capture s = (s, [])) ∧
    (s.is_capturing = true →
        (stop_capture s).1.stop_event = true ∧
        (s.has_capture_thread = true → Effect.threadJoin 2 ∈ (stop_capture s).2) ∧
        (stop_capture s).1.is_capturing = false ∧
        (stop_capture s).1.current_device_id = none ∧
        (stop_capture s).1.is_paused = false ∧
        (stop_capture s).1.silence_start_time = none) := by
  constructor
  · intro h; simp [stop_capture, stop_capture_from, h]
  · intro h
    unfold stop_capture stop_capture_from
    simp only [h, Bool.not_true, Bool.false_eq_true, if_false]
    by_cases hsec : s.secondary_device_id = none <;>
      by_cases hthr : s.has_capture_thread <;>
        by_cases hsth : s.has_secondary_thread <;>
          simp [hsec, hthr, hsth]

/-- C9 witness: stopping the concretely started engine. -/
theorem stop_capture_spec_witness :
    (started3.is_capturing = true ∧ started3.has_capture_thread = true) ∧
    ((stop_capture started3).1.stop_event = true ∧
     Effect.threadJoin 2 ∈ (stop_capture started3).2 ∧
     (stop_capture started3).1.current_device_id = none) :=
  ⟨by decide,
   ((stop_capture_spec started3).2 (by decide)).1,
   ((stop_capture_spec started3).2 (by decide)).2.1 (by decide),
   ((stop_capture_spec started3).2 (by decide)).2.2.2.1⟩

/-- C10: `set_device` while capturing restarts with only the saved chunk
callback, so a previously registered error callback is silently dropped:
afterwards the session is capturing again but `error_callback` is unset. -/
theorem set_device_drops_error_callback (s : EngineState) (did : ℤ)
    (cb : CbVal) (e : ℕ) (hcap : s.is_capturing = true)
    (hcb : s.callback = some cb) (_hecb : s.error_callback = some e) :
    (set_device s did).1.error_callback = none ∧
    (set_device s did).1.is_capturing = true := by
  have hsc := stop_capture_not_capturing s
  unfold set_device
  simp only [hcap, Bool.not_true, Bool.false_eq_true, if_false, hcb]
  simp [start_capture, hsc]

/-- C10 witness: switching the concretely started engine (which holds
error callback 1) to device 9 leaves `error_callback` unset. -/
theorem set_device_drops_error_callback_witness :
    (started3.is_capturing = true ∧ started3.callback = some (CbVal.plain 0) ∧
        started3.error_callback = some 1) ∧
    (set_device started3 9).1.error_callback = none :=
  ⟨by decide,
   (set_device_drops_error_callback started3 9 (CbVal.plain 0) 1
      (by decide) (by decide) (by decide)).1⟩

/-- C6: after a primary chunk arrives, a mix happens exactly when both
queues are non-empty: one chunk is popped from the front of each queue,
both are truncated to the shorter length and their sample-wise average is
delivered to the user callback; with an empty counterpart queue nothing is
delivered and no queued chunk is removed; and mixing constant chunks
filled with `a` and `b` delivers the constant chunk `(a + b) / 2`. -/
theorem mixer_fifo_average_spec (s : EngineState) (k : ℕ) :
    (s.primary_buffer = [] → mix_and_callback s k = (s, [])) ∧
    (s.secondary_buffer = [] → mix_and_callback s k = (s, [])) ∧
    (∀ p ps q qs, s.primary_buffer = p :: ps → s.secondary_buffer = q :: qs →
        mix_and_callback s k =
          ({ s with primary_buffer := ps, secondary_buffer := qs },
           [Effect.chunkCb k
              (List.zipWith (fun a b => (a + b) / 2)
                (p.take (min p.length q.length))
                (q.take (min p.length q.length)))])) ∧
    (∀ chunk, s.secondary_buffer = [] →
        primary_callback_step s k chunk =
          ({ s with primary_buffer := s.primary_buffer ++ [chunk] }, [])) ∧
    (∀ (n : ℕ) (a b : ℚ), s.primary_buffer = [] →
        s.secondary_buffer = [List.replicate n b] →
        primary_callback_step s k (List.replicate n a) =
          ({ s with primary_buffer := [], secondary_buffer := [] },
           [Effect.chunkCb k (List.replicate n ((a + b) / 2))])) := by
  refine ⟨fun hp => ?_, fun hq => ?_, fun p ps q qs hp hq => ?_,
    fun chunk hq => ?_, fun n a b hp hq => ?_⟩
  · simp [mix_and_callback, hp]
  · cases hp : s.primary_buffer <;> simp [mix_and_callback, hp, hq]
  · simp [mix_and_callback, hp, hq]
  · cases hpb : s.primary_buffer ++ [chunk] with
    | nil => simp at hpb
    | cons x xs => simp [primary_callback_step, mix_and_callback, hpb, hq]
  · simp [primary_callback_step, mix_and_callback, hp, hq,
      List.take_replicate, zipWith_avg_replicate]

/-- C6 witness: mixing a queued constant-0.3 chunk with an arriving
constant-0.5 chunk of the same length delivers the constant-0.4 chunk. -/
theorem mixer_fifo_average_spec_witness :
    ((({ engine0 with secondary_buffer := [List.replicate 4 (3/10)] } :
          EngineState).primary_buffer = []) ∧
      ({ engine0 with secondary_buffer := [List.replicate 4 (3/10)] } :
          EngineState).secondary_buffer = [List.replicate 4 (3/10)]) ∧
    primary_callback_step
        { engine0 with secondary_buffer := [List.replicate 4 (3/10)] } 0
        (List.replicate 4 (5/10)) =
      ({ engine0 with primary_buffer := [], secondary_buffer := [] },
       [Effect.chunkCb 0 (List.replicate 4 ((5/10 + 3/10) / 2))]) := by
  refine ⟨⟨by rfl, by rfl⟩, ?_⟩
  exact (mixer_fifo_average_spec
      { engine0 with secondary_buffer := [List.replicate 4 (3/10)] } 0).2.2.2.2
    4 (5/10) (3/10) (by rfl) (by rfl)

/-- C7: `start_multi_source_capture` fails on an empty id list without
touching the state or starting any thread; with a single id it is exactly
`start_capture` on that id; with two or more ids (when not already
capturing) it succeeds and starts a primary and a secondary session. -/
theorem start_multi_source_arity_spec (s : EngineState) (k : ℕ) (d1 d2 : ℤ)
    (rest : List ℤ) :
    ((start_multi_source_capture s [] k).1 = false ∧
        (start_multi_source_capture s [] k).2.1 = s ∧
        (start_multi_source_capture s [] k).2.2 =
          [Effect.print "Error: No devices specified"]) ∧
    (start_multi_source_capture s [d1] k =
      start_capture s d1 (CbVal.plain k) none) ∧
    (s.is_capturing = false →
        (start_multi_source_capture s (d1 :: d2 :: rest) k).1 = true ∧
        (start_multi_source_capture s (d1 :: d2 :: rest) k).2.1.is_capturing = true ∧
        (start_multi_source_capture s (d1 :: d2 :: rest) k).2.1.current_device_id = some d1 ∧
        (start_multi_source_capture s (d1 :: d2 :: rest) k).2.1.secondary_device_id = some d2 ∧
        (start_multi_source_capture s (d1 :: d2 :: rest) k).2.2 =
          [Effect.threadStart, Effect.secondaryThreadStart]) := by
  refine ⟨⟨rfl, rfl, rfl⟩, rfl, fun h => ?_⟩
  simp [start_multi_source_capture, h]

/-- C7 witness: on the fresh engine, starting with ids `[3, 7]` succeeds
and starts both sessions. -/
theorem start_multi_source_arity_spec_witness :
    engine0.is_capturing = false ∧
    (start_multi_source_capture engine0 [3, 7] 0).1 = true ∧
    (start_multi_source_capture engine0 [3, 7] 0).2.2 =
      [Effect.threadStart, Effect.secondaryThreadStart] :=
  ⟨by decide,
   ((start_multi_source_arity_spec engine0 0 3 7 []).2.2 (by decide)).1,
   ((start_multi_source_arity_spec engine0 0 3 7 []).2.2 (by decide)).2.2.2.2⟩

/-- C8: `set_device` while not capturing only records the new id and has
no effects (no thread is created); while capturing it performs a
`stop_capture` followed by a `start_capture` on the new device with the
previously registered chunk callback, which the restarted session keeps. -/
theorem set_device_spec (s : EngineState) (did : ℤ) :
    (s.is_capturing = false →
        set_device s did = ({ s with current_device_id := some did }, [])) ∧
    (∀ cb, s.is_capturing = true → s.callback = some cb →
        set_device s did =
          ((start_capture (stop_capture s).1 did cb none).2.1,
           (stop_capture s).2 ++ (start_capture (stop_capture s).1 did cb none).2.2) ∧
        (set_device s did).1.callback = some cb ∧
        (set_device s did).1.is_capturing = true ∧
        (set_device s did).1.current_device_id = some did ∧
        Effect.threadStart ∈ (set_device s did).2) := by
  constructor
  · intro h; simp [set_device, h]
  · intro cb h hcb
    have hsc := stop_capture_not_capturing s
    have heq : set_device s did =
        ((start_capture (stop_capture s).1 did cb none).2.1,
         (stop_capture s).2 ++ (start_capture (stop_capture s).1 did cb none).2.2) := by
      unfold set_device
      simp only [h, Bool.not_true, Bool.false_eq_true, if_false, hcb]
    refine ⟨heq, ?_, ?_, ?_, ?_⟩ <;> rw [heq] <;> simp [start_capture, hsc]

/-- C8 witness: switching the concretely started engine to device 9
restarts it with the saved callback. -/
theorem set_device_spec_witness :
    (started3.is_capturing = true ∧ started3.callback = some (CbVal.plain 0)) ∧
    ((set_device started3 9).1.callback = some (CbVal.plain 0) ∧
     (set_device started3 9).1.is_capturing = true ∧
     (set_device started3 9).1.current_device_id = some 9) :=
  ⟨by decide,
   ((set_device_spec started3 9).2 (CbVal.plain 0) (by decide) (by decide)).2.1,
   ((set_device_spec started3 9).2 (CbVal.plain 0) (by decide) (by decide)).2.2.1,
   ((set_device_spec started3 9).2 (CbVal.plain 0) (by decide) (by decide)).2.2.2.1⟩

/-- C1 counterexample: device id 0 is not enumerable (the device list is
empty), yet `start_capture(0, ...)` on the fresh engine returns true,
marks the session capturing and starts the capture thread — refuting the
claim that a non-enumerable id makes `start_capture` fail immediately
with false and no thread. -/
theorem start_capture_accepts_missing_device :
    check_device_available [] (some 0) = false ∧
    (start_capture engine0 0 (CbVal.plain 0) none).1 = true ∧
    (start_capture engine0 0 (CbVal.plain 0) none).2.1.is_capturing = true ∧
    Effect.threadStart ∈ (start_capture engine0 0 (CbVal.plain 0) none).2.2 := by
  decide

/-- C1 (amended): `start_capture` performs no device-list validation — for
any device id, when not already capturing, it returns true, starts the
capture thread and marks the session capturing; a non-enumerable id is
only detected afterwards inside the capture loop, whose first iteration
takes the disconnection path: the disconnection message is reported first,
the stop flag ends the loop, and no stream is ever opened. -/
theorem start_capture_defers_device_validation (s : EngineState)
    (devices : List AudioDevice) (did : ℤ) (cb : CbVal) (ecb : Option ℕ)
    (b : StreamBehavior) (rest : List StreamBehavior)
    (h : s.is_capturing = false) (hmax : 0 < s.max_reconnect_attempts)
    (hsec : s.secondary_device_id = none)
    (hdev : check_device_available devices (some did) = false) :
    (start_capture s did cb ecb).1 = true ∧
    (start_capture s did cb ecb).2.2 = [Effect.threadStart] ∧
    (start_capture s did cb ecb).2.1.is_capturing = true ∧
    (capture_loop devices (b :: rest) (start_capture s did cb ecb).2.1).1.stop_event
      = true ∧
    (capture_loop devices (b :: rest) (start_capture s did cb ecb).2.1).2.head? =
      some (Effect.print ("Audio device " ++ toString did ++ " disconnected")) ∧
    Effect.streamOpen ∉
      (capture_loop devices (b :: rest) (start_capture s did cb ecb).2.1).2 := by
  have hstart : (start_capture s did cb ecb).2.1 =
      { s with
        callback := some cb, error_callback := ecb,
        current_device_id := some did, stop_event := false,
        reconnect_attempts := 0, has_capture_thread := true,
        is_capturing := true } := by
    simp [start_capture, h]
  have hloop := capture_loop_device_absent devices b rest
    ((start_capture s did cb ecb).2.1)
    (by rw [hstart]) (by rw [hstart]) (by rw [hstart]; exact hmax)
    (by rw [hstart]; exact hdev) (by rw [hstart]; exact hsec)
    (by rw [hstart])
  refine ⟨by simp [start_capture, h], by simp [start_capture, h],
    by rw [hstart], by rw [hloop], ?_, ?_⟩
  · rw [hloop, hstart]
    simp [pyStr]
  · rw [hloop, hstart]
    cases ecb <;> simp [errorCbEffs]

/-- C1 witness: starting the fresh engine on the non-enumerated device 9
and running one loop iteration against `sampleDevices`. -/
theorem start_capture_defers_device_validation_witness :
    (engine0.is_capturing = false ∧ 0 < engine0.max_reconnect_attempts ∧
        engine0.secondary_device_id = none ∧
        check_device_available sampleDevices (some 9) = false) ∧
    (start_capture engine0 9 (CbVal.plain 0) (some 1)).1 = true ∧
    Effect.streamOpen ∉
      (capture_loop sampleDevices [StreamBehavior.runsUntilStop]
        (start_capture engine0 9 (CbVal.plain 0) (some 1)).2.1).2 :=
  ⟨by decide,
   (start_capture_defers_device_validation engine0 sampleDevices 9
      (CbVal.plain 0) (some 1) StreamBehavior.runsUntilStop []
      (by decide) (by decide) (by decide) (by decide)).1,
   (start_capture_defers_device_validation engine0 sampleDevices 9
      (CbVal.plain 0) (some 1) StreamBehavior.runsUntilStop []
      (by decide) (by decide) (by decide) (by decide)).2.2.2.2.2⟩

/-- C3 counterexample: with the started engine's device absent from the
enumeration, the loop reports the disconnection message but still
announces a reconnect attempt and sleeps the retry delay, and the session
is even left flagged as capturing (the handler's stop raises while
joining the capture thread from itself) — refuting the claim that the
supervisor goes directly to the terminal failure path with no
retry-delay sleep or reconnect-attempt message and a non-capturing
session. -/
theorem disconnection_still_sleeps_and_announces :
    Effect.sleep 5 ∈ (capture_loop [] [StreamBehavior.runsUntilStop] started7).2 ∧
    Effect.print "Attempting to reconnect (1/5)..." ∈
      (capture_loop [] [StreamBehavior.runsUntilStop] started7).2 ∧
    (capture_loop [] [StreamBehavior.runsUntilStop] started7).1.is_capturing = true := by
  decide

/-- C3 (amended): when the enumerator confirms the configured device is
absent at the top of a loop iteration, the disconnection-specific message
is reported first (distinct from the generic wrapped error), no stream is
ever opened and no second iteration runs — but the short-circuit is
imperfect: the handler's stop sets the stop flag and then raises while
joining the capture thread from itself, so the session stays flagged as
capturing, and the loop's exception handler still emits exactly one
reconnect-attempt announcement and sleeps exactly one retry delay before
the stop flag ends the loop. -/
theorem disconnection_short_circuit_spec (devices : List AudioDevice)
    (b : StreamBehavior) (rest : List StreamBehavior) (s : EngineState)
    (hcap : s.is_capturing = true) (hstop : s.stop_event = false)
    (hatt : s.reconnect_attempts < s.max_reconnect_attempts)
    (hdev : check_device_available devices s.current_device_id = false)
    (hsec : s.secondary_device_id = none)
    (hthr : s.has_capture_thread = true) :
    (capture_loop devices (b :: rest) s).1.is_capturing = true ∧
    (capture_loop devices (b :: rest) s).1.stop_event = true ∧
    (capture_loop devices (b :: rest) s).2.head? =
      some (Effect.print
        ("Audio device " ++ pyStr s.current_device_id ++ " disconnected")) ∧
    Effect.streamOpen ∉ (capture_loop devices (b :: rest) s).2 ∧
    (capture_loop devices (b :: rest) s).2.countP isSleepEff = 1 ∧
    Effect.print ("Attempting to reconnect ("
        ++ toString (s.reconnect_attempts + 1) ++ "/"
        ++ toString s.max_reconnect_attempts ++ ")...")
      ∈ (capture_loop devices (b :: rest) s).2 := by
  rw [capture_loop_device_absent devices b rest s hcap hstop hatt hdev hsec hthr]
  cases hecb : s.error_callback <;>
    simp [errorCbEffs, hecb, isSleepEff, hcap, List.countP_append, List.countP_cons]

/-- C3 witness: the concretely started engine on device 7 against an
empty enumeration. -/
theorem disconnection_short_circuit_spec_witness :
    (started7.is_capturing = true ∧ started7.stop_event = false ∧
        started7.reconnect_attempts < started7.max_reconnect_attempts ∧
        check_device_available [] started7.current_device_id = false ∧
        started7.secondary_device_id = none ∧
        started7.has_capture_thread = true) ∧
    (Effect.streamOpen ∉ (capture_loop [] [StreamBehavior.openFail "io"] started7).2 ∧
     (capture_loop [] [StreamBehavior.openFail "io"] started7).2.countP isSleepEff = 1) :=
  ⟨by decide,
   (disconnection_short_circuit_spec [] (StreamBehavior.openFail "io") [] started7
      (by decide) (by decide) (by decide) (by decide) (by decide) (by decide)).2.2.2.1,
   (disconnection_short_circuit_spec [] (StreamBehavior.openFail "io") [] started7
      (by decide) (by decide) (by decide) (by decide) (by decide) (by decide)).2.2.2.2.1⟩

/-- C4 counterexample: after 5 consecutive stream failures the started
engine is still capturing and the 5th failure was itself answered with a
"reconnecting (5/5)" announcement and a retry sleep — refuting the claim
that the 5th consecutive failure transitions the session to failed and
stops retrying. -/
theorem fifth_failure_still_retries :
    started3.max_reconnect_attempts = 5 ∧
    (capture_loop sampleDevices
        (List.replicate 5 (StreamBehavior.openFail "io error"))
        started3).1.is_capturing = true ∧
    Effect.print "Attempting to reconnect (5/5)..." ∈
      (capture_loop sampleDevices
        (List.replicate 5 (StreamBehavior.openFail "io error")) started3).2 ∧
    (capture_loop sampleDevices
        (List.replicate 5 (StreamBehavior.openFail "io error"))
        started3).2.countP isSleepEff = 5 := by
  decide

/-- C4 (amended): with `max_attempts = 5` it is the 6th consecutive stream
failure that makes the session non-capturing with the terminal message;
failures 1 through 5 each announce "reconnecting (n/5)" and sleep the
configured 5-second delay before retrying; and any attempt whose stream
opens successfully resets the attempt counter to zero. -/
theorem reconnect_budget_spec :
    ((capture_loop sampleDevices
        (List.replicate 6 (StreamBehavior.openFail "io error"))
        started3).1.is_capturing = false ∧
     (capture_loop sampleDevices
        (List.replicate 6 (StreamBehavior.openFail "io error"))
        started3).2.countP isSleepEff = 5 ∧
     (capture_loop sampleDevices
        (List.replicate 6 (StreamBehavior.openFail "io error"))
        started3).2.count (Effect.sleep 5) = 5 ∧
     (∀ n ∈ ([1, 2, 3, 4, 5] : List ℕ),
        Effect.print ("Attempting to reconnect (" ++ toString n ++ "/5)...") ∈
          (capture_loop sampleDevices
            (List.replicate 6 (StreamBehavior.openFail "io error")) started3).2) ∧
     Effect.print "Maximum reconnection attempts reached. Please check your audio device."
       ∈ (capture_loop sampleDevices
            (List.replicate 6 (StreamBehavior.openFail "io error")) started3).2) ∧
    (∀ (devices : List AudioDevice) (s : EngineState) (msg : String),
        check_device_available devices s.current_device_id = true →
        (run_attempt devices StreamBehavior.runsUntilStop s).1.reconnect_attempts = 0 ∧
        (run_attempt devices (StreamBehavior.failsAfterOpen msg) s).1.reconnect_attempts = 0) := by
  refine ⟨by decide, fun devices s msg h => ?_⟩
  constructor <;> simp [run_attempt, h]

/-- C4 witness: a successfully opening attempt on the started engine
resets the reconnect counter. -/
theorem reconnect_budget_spec_witness :
    check_device_available sampleDevices started3.current_device_id = true ∧
    (run_attempt sampleDevices StreamBehavior.runsUntilStop started3).1.reconnect_attempts = 0 :=
  ⟨by decide,
   (reconnect_budget_spec.2 sampleDevices started3 "io" (by decide)).1⟩

/-- C2 counterexample: pushing the chunks `[1,1]`, `[2,2]`, `[3,3]`
(chunk duration `d = 2/16000 = 1/8000`) into a fresh buffer yields `None`,
then the window `(c0,c1)` with `start_time = 0, end_time = 2d`, but the
third push yields the window `(c1,c2)` with `start_time = 2d` and
`end_time = 4d`, not `start_time = d` and `end_time = 3d` as claimed. -/
theorem overlap_third_push_timestamps_differ :
    (process_with_overlap initTranscription [1, 1]).1 = none ∧
    (process_with_overlap (process_with_overlap initTranscription [1, 1]).2 [2, 2]).1 =
      some { window := [1, 1, 2, 2], start_time := 0, end_time := 2 * (1 / 8000) } ∧
    (process_with_overlap
        (process_with_overlap (process_with_overlap initTranscription [1, 1]).2 [2, 2]).2
        [3, 3]).1 =
      some { window := [2, 2, 3, 3], start_time := 2 * (1 / 8000),
             end_time := 4 * (1 / 8000) } ∧
    (process_with_overlap
        (process_with_overlap (process_with_overlap initTranscription [1, 1]).2 [2, 2]).2
        [3, 3]).1.map WindowResult.start_time ≠ some (1 / 8000) ∧
    (process_with_overlap
        (process_with_overlap (process_with_overlap initTranscription [1, 1]).2 [2, 2]).2
        [3, 3]).1.map WindowResult.end_time ≠ some (3 * (1 / 8000)) := by
  refine ⟨?_, ?_, ?_, ?_, ?_⟩ <;>
    simp [process_with_overlap, transcribe, initTranscription] <;> norm_num

/-- C2 (amended): for equal-length chunks `c0, c1, c2` of duration
`d = L/16000`, the pushes yield `None`, then the window `c0 ++ c1` with
`start_time = 0, end_time = 2d`, then the window `c1 ++ c2` with
`start_time = 2d, end_time = 4d` (the timestamps advance by the full
two-chunk window duration, not by one chunk duration); after `reset()`
the next push again returns `None`. -/
theorem overlap_window_trace_spec (c0 c1 c2 : List ℚ) (L : ℕ)
    (h0 : c0.length = L) (h1 : c1.length = L) (h2 : c2.length = L) :
    (process_with_overlap initTranscription c0).1 = none ∧
    (process_with_overlap (process_with_overlap initTranscription c0).2 c1).1 =
      some { window := c0 ++ c1, start_time := 0,
             end_time := 2 * ((L : ℚ) / 16000) } ∧
    (process_with_overlap
        (process_with_overlap (process_with_overlap initTranscription c0).2 c1).2
        c2).1 =
      some { window := c1 ++ c2, start_time := 2 * ((L : ℚ) / 16000),
             end_time := 4 * ((L : ℚ) / 16000) } ∧
    (∀ (s : TranscriptionState) (c : List ℚ),
        (process_with_overlap (reset_buffer s) c).1 = none) := by
  refine ⟨?_, ?_, ?_, fun s c => ?_⟩
  · simp [process_with_overlap, initTranscription]
  · simp [process_with_overlap, transcribe, initTranscription, h0, h1]
    ring
  · simp [process_with_overlap, transcribe, initTranscription, h0, h1, h2]
    constructor <;> ring
  · simp [process_with_overlap, reset_buffer]

/-- C2 witness: the amended trace at the concrete chunks `[1,1]`, `[2,2]`,
`[3,3]` of length 2. -/
theorem overlap_window_trace_spec_witness :
    (([1, 1] : List ℚ).length = 2 ∧ ([2, 2] : List ℚ).length = 2 ∧
        ([3, 3] : List ℚ).length = 2) ∧
    (process_with_overlap initTranscription [1, 1]).1 = none ∧
    (process_with_overlap (process_with_overlap initTranscription [1, 1]).2 [2, 2]).1 =
      some { window := [1, 1, 2, 2], start_time := 0,
             end_time := 2 * ((2 : ℚ) / 16000) } :=
  ⟨⟨rfl, rfl, rfl⟩,
   (overlap_window_trace_spec [1, 1] [2, 2] [3, 3] 2 rfl rfl rfl).1,
   (overlap_window_trace_spec [1, 1] [2, 2] [3, 3] 2 rfl rfl rfl).2.1⟩

end OpenLiveCaption
